import Mathlib

/-!
Shallow embedding of the biorad repository's algorithm adapter modules
(`model_comparison/algorithms/classification.py`,
`model_comparison/algorithms/feature_selection.py`) and of the test
harness (`experiment/tests/test_experiment.py`), with theorems settling
the frozen claims about them.

Python numbers are modelled by `ℤ` and `ℚ` (exact rationals for float
literals), fallible Python code by `Except PyErr`, and the external
ConfigSpace / scikit-learn collaborators by executable definitions that
follow their documented behaviour where the adapters rely on it.
-/

namespace Biorad

/-- Python scalars that occur in hyperparameter domains and defaults. -/
inductive PyVal where
  | int (i : ℤ)
  | float (q : ℚ)
  | str (s : String)
  | bool (b : Bool)
  | pynone
  deriving DecidableEq, Repr

/-- Python exceptions that the embedded code can raise. -/
inductive PyErr where
  | nameError (name : String)
  | valueError (msg : String)
  | typeError (msg : String)
  deriving DecidableEq, Repr

/-- Evaluating a bare name that has no binding in scope (neither local,
nor module-global, nor imported) raises `NameError` in Python. -/
def unboundName (name : String) : Except PyErr α :=
  .error (.nameError name)

/-- A hyperparameter's domain, as declared through the ConfigSpace
library: integer range, float range, or categorical choice set. -/
inductive Domain where
  | uniformInt (lower upper : ℤ)
  | uniformFloat (lower upper : ℚ)
  | categorical (choices : List PyVal)
  deriving DecidableEq, Repr

/-- Whether a value lies inside a domain. -/
def Domain.containsVal : Domain → PyVal → Bool
  | .uniformInt lower upper, .int i => decide (lower ≤ i) && decide (i ≤ upper)
  | .uniformFloat lower upper, .float q => decide (lower ≤ q) && decide (q ≤ upper)
  | .categorical choices, v => decide (v ∈ choices)
  | _, _ => false

/-- One named hyperparameter with its domain and (always materialised)
default value, as the ConfigSpace library stores it. -/
structure Hyperparameter where
  name : String
  domain : Domain
  default_value : PyVal
  deriving DecidableEq, Repr

/-- `ConfigSpace.hyperparameters.UniformIntegerHyperparameter`: validates
the bounds and the default (raising `ValueError` otherwise); with no
default given the library takes the rounded midpoint of the range. -/
def UniformIntegerHyperparameter (name : String) (lower upper : ℤ)
    (default_value : Option ℤ) : Except PyErr Hyperparameter :=
  if upper ≤ lower then
    .error (.valueError ("Upper bound must be larger than lower bound for " ++ name))
  else
    let d := default_value.getD ((lower + upper) / 2)
    if lower ≤ d ∧ d ≤ upper then
      .ok ⟨name, .uniformInt lower upper, .int d⟩
    else
      .error (.valueError ("Illegal default value for hyperparameter " ++ name))

/-- `ConfigSpace.hyperparameters.UniformFloatHyperparameter`, with the
same validation; the default defaults to the midpoint. -/
def UniformFloatHyperparameter (name : String) (lower upper : ℚ)
    (default_value : Option ℚ) : Except PyErr Hyperparameter :=
  if upper ≤ lower then
    .error (.valueError ("Upper bound must be larger than lower bound for " ++ name))
  else
    let d := default_value.getD ((lower + upper) / 2)
    if lower ≤ d ∧ d ≤ upper then
      .ok ⟨name, .uniformFloat lower upper, .float d⟩
    else
      .error (.valueError ("Illegal default value for hyperparameter " ++ name))

/-- `ConfigSpace.hyperparameters.CategoricalHyperparameter`: the default
must be one of the choices; with no default the library takes the first
choice. -/
def CategoricalHyperparameter (name : String) (choices : List PyVal)
    (default_value : Option PyVal) : Except PyErr Hyperparameter :=
  match default_value with
  | some d =>
      if d ∈ choices then .ok ⟨name, .categorical choices, d⟩
      else .error (.valueError ("Illegal default value for hyperparameter " ++ name))
  | none =>
      match choices with
      | c :: _ => .ok ⟨name, .categorical choices, c⟩
      | [] => .error (.valueError ("Empty choice set for hyperparameter " ++ name))

/-- `ConfigSpace.conditions.InCondition`: the child hyperparameter is
active exactly when the parent's value is among `values`. -/
structure InCondition where
  child : String
  parent : String
  values : List PyVal
  deriving DecidableEq, Repr

/-- A `smac.configspace.ConfigurationSpace`: a seed (set by `.seed`),
the added hyperparameters and the added conditions. -/
structure ConfigurationSpace where
  seed : Option ℤ
  hyperparameters : List Hyperparameter
  conditions : List InCondition
  deriving DecidableEq, Repr

/-- `ConfigurationSpace()` — fresh space, no seed, nothing added. -/
def ConfigurationSpace.empty : ConfigurationSpace :=
  ⟨Option.none, [], []⟩

/-- `config.seed(s)` seeds the space's random generator. -/
def ConfigurationSpace.setSeed (cs : ConfigurationSpace) (s : ℤ) : ConfigurationSpace :=
  { cs with seed := some s }

/-- The names already declared in a space. -/
def ConfigurationSpace.names (cs : ConfigurationSpace) : List String :=
  cs.hyperparameters.map (·.name)

/-- `config.add_hyperparameters(hs)`: raises `ValueError` when a name
would be declared twice. -/
def ConfigurationSpace.add_hyperparameters (cs : ConfigurationSpace)
    (hs : List Hyperparameter) : Except PyErr ConfigurationSpace :=
  if (cs.names ++ hs.map (·.name)).Nodup then
    .ok { cs with hyperparameters := cs.hyperparameters ++ hs }
  else
    .error (.valueError "Hyperparameter is already in the configuration space")

/-- `config.add_conditions(conds)`: every child and parent must already
be declared in the space. -/
def ConfigurationSpace.add_conditions (cs : ConfigurationSpace)
    (conds : List InCondition) : Except PyErr ConfigurationSpace :=
  if conds.all (fun c => c.child ∈ cs.names && c.parent ∈ cs.names) then
    .ok { cs with conditions := cs.conditions ++ conds }
  else
    .error (.valueError "Child or parent hyperparameter not in the configuration space")

/-- `config.add_condition(cond)` — singleton version. -/
def ConfigurationSpace.add_condition (cs : ConfigurationSpace)
    (cond : InCondition) : Except PyErr ConfigurationSpace :=
  cs.add_conditions [cond]

/-- A hyperparameter is active in a (total) assignment of values to
names exactly when every condition that has it as child is satisfied by
the parent's value. -/
def ConfigurationSpace.activeB (cs : ConfigurationSpace) (name : String)
    (cfg : String → PyVal) : Bool :=
  cs.conditions.all (fun c => c.child ≠ name || decide (cfg c.parent ∈ c.values))

/-- The space a fallible construction produced, with the empty space as
a placeholder on the error path. -/
def okSpace (e : Except PyErr ConfigurationSpace) : ConfigurationSpace :=
  match e with
  | .ok cs => cs
  | .error _ => ConfigurationSpace.empty

end Biorad

namespace Biorad.classification

open Biorad

/-- Module-level `SEED = 0` of `classification.py`; the module body never
assigns it again (the `global SEED` statements in the properties only read
it). -/
def SEED : ℤ := 0

/-- The `config = ConfigurationSpace()` / `config.seed(SEED)` prelude that
every `config_space` body of `classification.py` executes before adding
its hyperparameters. -/
def freshSeeded : ConfigurationSpace := ConfigurationSpace.empty.setSeed SEED

/-- The `'{}__...'.format(self.NAME)` name formatting used by
`RFEstimator.hparam_space`. -/
def rfName (s : String) : String := "RFEstimator" ++ "__" ++ s

/-- `RFEstimator.hparam_space` (classification.py:49-88): builds a tuple of
hyperparameters, each named with the `RFEstimator__` component prefix; the
constructors run in source order and validate their default values. -/
def RFEstimator.hparam_space : Except PyErr (List Hyperparameter) := do
  let random_state ← UniformIntegerHyperparameter (rfName "random_state") 0 1000 Option.none
  let n_estimators ← UniformIntegerHyperparameter (rfName "n_estimators") 10 3000 (some 100)
  let criterion ← CategoricalHyperparameter (rfName "criterion")
    [.str "gini", .str "entropy"] (some (.str "gini"))
  let max_depth ← CategoricalHyperparameter (rfName "max_depth")
    [.int 3, .int 5, .pynone] (some .pynone)
  let max_features ← CategoricalHyperparameter (rfName "max_features")
    [.str "auto", .str "sqrt", .str "log2", .pynone] (some .pynone)
  let bootstrap ← CategoricalHyperparameter (rfName "bootstrap")
    [.bool true, .bool false] (some (.bool true))
  let min_samples_leaf ← UniformFloatHyperparameter (rfName "min_samples_leaf")
    (3 / 2) (101 / 2) (some 1)
  return [random_state, n_estimators, criterion, max_depth, max_features,
          bootstrap, min_samples_leaf]

/-- `PLSREstimator.config_space` (classification.py:103-120). -/
def PLSREstimator.config_space : Except PyErr ConfigurationSpace := do
  let tol ← UniformFloatHyperparameter "tol" (1 / 10 ^ 9) (1 / 10 ^ 3) (some (1 / 10 ^ 7))
  let n_components ← UniformIntegerHyperparameter "n_components" 1 40 (some 27)
  let config := freshSeeded
  let config ← config.add_hyperparameters [tol, n_components]
  return config

/-- `LogRegEstimator.config_space` (classification.py:156-176). -/
def LogRegEstimator.config_space : Except PyErr ConfigurationSpace := do
  let random_states ← UniformIntegerHyperparameter "random_state" 0 1000 Option.none
  let C ← UniformFloatHyperparameter "C" (1 / 1000) 1000 (some 1)
  let penalty ← CategoricalHyperparameter "penalty" [.str "l1", .str "l2"] (some (.str "l2"))
  let config := freshSeeded
  let config ← config.add_hyperparameters [random_states, C, penalty]
  return config

/-- `SVCEstimator.config_space` (classification.py:197-258), including the
four `InCondition` conditionals on the kernel-specific hyperparameters. -/
def SVCEstimator.config_space : Except PyErr ConfigurationSpace := do
  let random_states ← UniformIntegerHyperparameter "random_state" 0 1000 Option.none
  let C ← UniformFloatHyperparameter "C" (1 / 1000) 1000 (some 1)
  let shrinking ← CategoricalHyperparameter "shrinking"
    [.bool true, .bool false] (some (.bool true))
  let kernel ← CategoricalHyperparameter "kernel"
    [.str "linear", .str "rbf", .str "poly", .str "sigmoid"] Option.none
  let gamma ← CategoricalHyperparameter "gamma"
    [.str "auto", .str "value"] (some (.str "auto"))
  let gamma_value ← UniformFloatHyperparameter "gamma_value" (1 / 10 ^ 4) 8 (some 1)
  let degree ← UniformIntegerHyperparameter "degree" 1 5 (some 3)
  let coef0 ← UniformFloatHyperparameter "coef0" 0 10 (some 0)
  let config := freshSeeded
  let config ← config.add_hyperparameters
    [random_states, C, shrinking, kernel, degree, coef0, gamma, gamma_value]
  let config ← config.add_conditions
    [⟨degree.name, kernel.name, [.str "poly"]⟩,
     ⟨gamma_value.name, gamma.name, [.str "value"]⟩,
     ⟨coef0.name, kernel.name, [.str "poly", .str "sigmoid"]⟩,
     ⟨gamma.name, kernel.name, [.str "rbf", .str "poly", .str "sigmoid"]⟩]
  return config

/-- `KNNEstimator.config_space` (classification.py:287-315), including the
`InCondition` making `p` depend on `metric`. -/
def KNNEstimator.config_space : Except PyErr ConfigurationSpace := do
  let n_neighbors ← UniformIntegerHyperparameter "n_neighbors" 3 100 (some 5)
  let leaf_size ← UniformIntegerHyperparameter "leaf_size" 10 100 (some 30)
  let metric ← CategoricalHyperparameter "metric"
    [.str "euclidean", .str "manhattan", .str "chebyshev", .str "minkowski"]
    (some (.str "minkowski"))
  let p ← UniformIntegerHyperparameter "p" 1 5 (some 2)
  let config := freshSeeded
  let config ← config.add_hyperparameters [n_neighbors, leaf_size, metric, p]
  let config ← config.add_condition ⟨p.name, metric.name, [.str "minkowski"]⟩
  return config

end Biorad.classification

namespace Biorad

/-- A data matrix: rows of rational feature values. -/
abbrev Matrix := List (List ℚ)

/-- `sklearn.utils.check_X_y`: the feature matrix must be non-empty and
rectangular with at least one feature, and the target must have one entry
per row; raises `ValueError` otherwise. -/
def check_X_y (X : Matrix) (y : List ℚ) : Except PyErr (Matrix × List ℚ) :=
  if X.length = y.length ∧ 0 < X.length ∧ 0 < (X.headD []).length ∧
      X.all (fun r => r.length = (X.headD []).length) then
    .ok (X, y)
  else
    .error (.valueError "check_X_y: bad input shapes")

/-- Smallest element of a column (0 for an empty list; unused case). -/
def listMin : List ℚ → ℚ
  | [] => 0
  | x :: xs => xs.foldl min x

/-- Largest element of a column (0 for an empty list; unused case). -/
def listMax : List ℚ → ℚ
  | [] => 0
  | x :: xs => xs.foldl max x

/-- Column `j` of a matrix. -/
def column (X : Matrix) (j : ℕ) : List ℚ := X.map (fun r => r.getD j 0)

/-- `sklearn.preprocessing.MinMaxScaler` state after `fit`: per-column
minima and maxima. -/
structure MinMaxScaler where
  mins : List ℚ
  maxs : List ℚ
  deriving DecidableEq, Repr

/-- `MinMaxScaler().fit(X)`. -/
def MinMaxScaler.fitOn (X : Matrix) : MinMaxScaler :=
  let w := (X.headD []).length
  ⟨(List.range w).map (fun j => listMin (column X j)),
   (List.range w).map (fun j => listMax (column X j))⟩

/-- One scaled entry: `(x - min) / (max - min)`, with a unit denominator
for a constant column (sklearn's zero-range handling). -/
def scaleEntry (mn mx x : ℚ) : ℚ := (x - mn) / (if mx = mn then 1 else mx - mn)

/-- `scaler.transform(X)`: map every column affinely onto `[0, 1]`. -/
def MinMaxScaler.transform (sc : MinMaxScaler) (X : Matrix) : Matrix :=
  X.map (fun r =>
    (List.range r.length).map (fun j =>
      scaleEntry (sc.mins.getD j 0) (sc.maxs.getD j 1) (r.getD j 0)))

/-- `MinMaxScaler().fit_transform(X)`. -/
def min_max_fit_transform (X : Matrix) : MinMaxScaler × Matrix :=
  let sc := MinMaxScaler.fitOn X
  (sc, sc.transform X)

/-- Python `int(...)` on a number truncates toward zero. -/
def pyIntOfRat (q : ℚ) : ℤ := if 0 ≤ q then ⌊q⌋ else -⌊-q⌋

/-- A Python numeric value (int or float). -/
inductive PyNum where
  | int (i : ℤ)
  | float (q : ℚ)
  deriving DecidableEq, Repr

/-- Numeric value of a `PyNum`. -/
def PyNum.toRat : PyNum → ℚ
  | .int i => (i : ℚ)
  | .float q => q

/-- `int(x)` for a Python number. -/
def PyNum.toInt (x : PyNum) : ℤ := pyIntOfRat x.toRat

/-- Python's slice `l[:k]`: total for every integer `k` and list length;
a nonnegative `k` keeps the first `k` elements (all of them when `k`
exceeds the length), a negative `k` drops the last `|k|` elements. -/
def pySliceTo (l : List α) (k : ℤ) : List α :=
  if 0 ≤ k then l.take k.toNat else l.take ((l.length : ℤ) + k).toNat

/-- `sklearn.feature_selection.SelectKBest(score_func, k).fit(X, y)`
followed by `get_support(indices=True)`: validates `k`, computes the
scores (an exception raised by the score function propagates out of
`fit`), and returns the indices of the `k` largest scores, ties broken
toward lower index, listed in ascending index order. -/
def selectKBest (score_func : Matrix → List ℚ → Except PyErr (List ℚ))
    (k : ℤ) (X : Matrix) (y : List ℚ) : Except PyErr (List ℕ) := do
  if k < 0 ∨ ((X.headD []).length : ℤ) < k then
    throw (.valueError "k should be 0 <= k <= n_features")
  let scores ← score_func X y
  let ranked := (List.range scores.length).map (fun j => (j, scores.getD j 0))
  let sorted := ranked.mergeSort (fun a b => b.2 ≤ a.2)
  let kept := (sorted.take k.toNat).map (·.1)
  return kept.mergeSort (fun a b => a ≤ b)

end Biorad

namespace Biorad.feature_selection

open Biorad

/-- Module-level `SEED = 0` of `feature_selection.py`; never reassigned. -/
def SEED : ℤ := 0

/-- The `config = ConfigurationSpace()` / `config.seed(SEED)` prelude that
both `config_space` bodies of `feature_selection.py` execute. -/
def freshSeeded : ConfigurationSpace := ConfigurationSpace.empty.setSeed SEED

/-- `ReliefFSelection` instance state. The numeric hyperparameter
attributes are modelled at numeric values (as set from a sampled
configuration); `support` and `scaler` start as `None` and are only
assigned by `fit` / `_check_X_y`. -/
structure ReliefFSelection where
  num_neighbors : PyNum
  num_features : PyNum
  support : Option (List ℕ)
  scaler : Option MinMaxScaler
  deriving DecidableEq, Repr

/-- `ReliefFSelection(num_neighbors, num_features)` constructor
(feature_selection.py:77-91): `support` and `scaler` are set to `None`. -/
def ReliefFSelection.new (num_neighbors num_features : PyNum) : ReliefFSelection :=
  ⟨num_neighbors, num_features, Option.none, Option.none⟩

/-- `ReliefFSelection.config_space` (feature_selection.py:97-114). -/
def ReliefFSelection.config_space : Except PyErr ConfigurationSpace := do
  let num_neighbors ← UniformIntegerHyperparameter "num_neighbors" 10 100 (some 20)
  let num_features ← UniformIntegerHyperparameter "num_features" 2 50 (some 20)
  let config := freshSeeded
  let config ← config.add_hyperparameters [num_neighbors, num_features]
  return config

/-- `ReliefFSelection._check_X_y` (feature_selection.py:116-125): formats
via `check_X_y`; then, only when no scaler is stored on the instance yet,
fits a fresh `MinMaxScaler`, rescales `X` and stores the scaler; when a
scaler is already stored, `X` is returned untouched (not even
transformed). -/
def ReliefFSelection.checkXy (s : ReliefFSelection) (X : Matrix) (y : List ℚ) :
    Except PyErr (Matrix × List ℚ × ReliefFSelection) := do
  let Xy ← check_X_y X y
  match s.scaler with
  | Option.none =>
      let scXs := min_max_fit_transform Xy.1
      return (scXs.2, Xy.2, { s with scaler := some scXs.1 })
  | some _ => return (Xy.1, Xy.2, s)

/-- The `num_neighbors` branch of `_check_params`
(feature_selection.py:148-162 and 240-253, identical in both selectors):
capped at `nrows - 1` when it strictly exceeds the number of rows,
otherwise cast with `int(...)`. -/
def checkNumNeighbors (num_neighbors : PyNum) (nrows : ℕ) : PyNum :=
  if num_neighbors.toRat > (nrows : ℚ) then .int ((nrows : ℤ) - 1)
  else .int num_neighbors.toInt

/-- The `num_features` branch of `_check_params`: both arms of its
`if self.num_features < 1` perform the same `int(...)` cast. -/
def checkNumFeatures (num_features : PyNum) : PyNum :=
  if num_features.toRat < 1 then .int num_features.toInt
  else .int num_features.toInt

/-- `ReliefFSelection._check_params(X)` applied to the instance. -/
def ReliefFSelection.checkParams (s : ReliefFSelection) (X : Matrix) :
    ReliefFSelection :=
  { s with num_neighbors := checkNumNeighbors s.num_neighbors X.length,
           num_features := checkNumFeatures s.num_features }

/-- `ReliefFSelection.fit` (feature_selection.py:127-146). The external
ReliefF library (its `fit` plus the `top_features` ranking it exposes) and
the inherited `base.BaseSelector.check_support` (the `base` module of the
repository is not among the included sources) are function parameters.
The bare `try/except` around the library call catches every exception,
issues a warning, and falls back to the empty candidate list; `fit`
returns the updated instance (`return self`) paired with the warnings
issued. -/
def ReliefFSelection.fit
    (relieff : ℤ → ℤ → Matrix → List ℚ → Except PyErr (List ℕ))
    (check_support : List ℕ → Matrix → List ℕ)
    (s : ReliefFSelection) (X : Matrix) (y : List ℚ) :
    Except PyErr (ReliefFSelection × List String) := do
  let r ← s.checkXy X y
  let X := r.1
  let y := r.2.1
  let s := r.2.2.checkParams X
  let cw : List ℕ × List String :=
    match relieff s.num_neighbors.toInt s.num_features.toInt X y with
    | .ok top_features => (pySliceTo top_features s.num_features.toInt, [])
    | .error _ => ([], ["Failed to select support with ReliefFSelection"])
  return ({ s with support := some (check_support cw.1 X) }, cw.2)

/-- `MutualInformationSelection` instance state, numeric attributes
modelled as in `ReliefFSelection`. -/
structure MutualInformationSelection where
  num_neighbors : PyNum
  num_features : PyNum
  random_state : ℤ
  support : Option (List ℕ)
  deriving DecidableEq, Repr

/-- `MutualInformationSelection(...)` constructor
(feature_selection.py:169-184): `support` is set to `None`. -/
def MutualInformationSelection.new (num_neighbors num_features : PyNum)
    (random_state : ℤ) : MutualInformationSelection :=
  ⟨num_neighbors, num_features, random_state, Option.none⟩

/-- `MutualInformationSelection.config_space` (feature_selection.py:190-207):
constructs `random_states` and `num_neighbors`, seeds a fresh space, and
then evaluates the argument tuple `(num_neighbors, num_features)` — but no
binding named `num_features` exists in that body (nor in the module), so
the name lookup raises `NameError` before `add_hyperparameters` runs, and
the declared `random_states` hyperparameter is never added. -/
def MutualInformationSelection.config_space : Except PyErr ConfigurationSpace := do
  let random_states ← UniformIntegerHyperparameter "random_state" 0 1000 Option.none
  let num_neighbors ← UniformIntegerHyperparameter "num_neighbors" 10 100 (some 20)
  let config := freshSeeded
  let num_features ← (unboundName "num_features" : Except PyErr Hyperparameter)
  let config ← config.add_hyperparameters [num_neighbors, num_features]
  let _ := random_states
  return config

/-- The score closure `_mutual_info_classif` defined inside
`MutualInformationSelection.fit` calls the bare name
`mutual_info_classif`, which `feature_selection.py` neither defines nor
imports: evaluating the name raises `NameError` before any argument
matters. -/
def mutual_info_classif_call : Except PyErr (List ℚ) :=
  unboundName "mutual_info_classif"

/-- `MutualInformationSelection.fit` (feature_selection.py:209-232): the
inherited `check_support` is a parameter (the `base` module is not among
the included sources); the bare `try/except` catches everything — in
particular the `NameError` the score closure raises because
`mutual_info_classif` is unbound. -/
def MutualInformationSelection.fit
    (check_support : List ℕ → Matrix → List ℕ)
    (s : MutualInformationSelection) (X : Matrix) (y : List ℚ) :
    Except PyErr (MutualInformationSelection × List String) := do
  let Xy ← check_X_y X y
  let cw : List ℕ × List String :=
    match selectKBest (fun _ _ => mutual_info_classif_call) s.num_features.toInt Xy.1 Xy.2 with
    | .ok sup => (sup, [])
    | .error _ => ([], ["Failed support with MutualInformationSelection."])
  return ({ s with support := some (check_support cw.1 Xy.1) }, cw.2)

end Biorad.feature_selection

namespace Biorad.test_experiment

open Biorad

/-- `np.arange(n)`: the integers `0, ..., n - 1`. -/
def np_arange (n : ℕ) : List ℕ := List.range n

/-- The scoring function the test harness imports and passes. -/
inductive ScoringFn where
  | roc_auc_score
  deriving DecidableEq, Repr

/-- Documented range of the external scorer:
`sklearn.metrics.roc_auc_score` is an AUC bounded in `[0, 1]`. -/
def ScoringFn.bounds : ScoringFn → ℚ × ℚ
  | .roc_auc_score => (0, 1)

/-- `error_score=np.nan` versus a finite sentinel. -/
inductive ErrorScore where
  | nan
  | finite (q : ℚ)
  deriving DecidableEq, Repr

/-- The arguments of the `comparison.model_comparison(...)` call made by
`experiment/tests/test_experiment.py` in its `__main__` block. -/
structure ModelComparisonCall where
  scoring : ScoringFn
  cv : ℕ
  oob : ℕ
  max_evals : ℕ
  shuffle : Bool
  verbose : ℕ
  random_states : List ℕ
  alpha : ℚ
  balancing : Bool
  write_prelim : Bool
  error_score : ErrorScore
  n_jobs : ℤ
  path_final_results : String
  deriving DecidableEq, Repr

/-- The concrete call in `test_experiment.py:63-95`: `CV = 3`, `OOB = 5`,
`MAX_EVALS = 4`, `SCORING = roc_auc_score`,
`random_states = np.arange(2)`, and the keyword arguments of the
`model_comparison` invocation. -/
def testCall : ModelComparisonCall :=
  { scoring := .roc_auc_score
    cv := 3
    oob := 5
    max_evals := 4
    shuffle := true
    verbose := 0
    random_states := np_arange 2
    alpha := 1 / 20
    balancing := true
    write_prelim := true
    error_score := .nan
    n_jobs := -1
    path_final_results := "./../data/test_results.csv" }

end Biorad.test_experiment

namespace Biorad

/-- `p` is a leading substring of `s`. -/
def strStarts (p s : String) : Bool := s.take p.length = p

/-- The exception a fallible computation raised, when it raised one. -/
def errOf : Except PyErr β → Option PyErr
  | .ok _ => Option.none
  | .error e => some e

/-- Every default value of the space lies inside its domain. -/
def ConfigurationSpace.defaultsInDomain (cs : ConfigurationSpace) : Bool :=
  cs.hyperparameters.all (fun h => h.domain.containsVal h.default_value)

/-- The hyperparameter-name list of the combined configuration space of a
(selector, estimator) pipeline, concatenating the two components'
spaces. -/
def mergedNames (sel est : ConfigurationSpace) : List String :=
  sel.names ++ est.names

/-- The six `config_space` properties declared across the two adapter
modules. -/
def configSpaceProperties : List (Except PyErr ConfigurationSpace) :=
  [feature_selection.ReliefFSelection.config_space,
   feature_selection.MutualInformationSelection.config_space,
   classification.PLSREstimator.config_space,
   classification.LogRegEstimator.config_space,
   classification.SVCEstimator.config_space,
   classification.KNNEstimator.config_space]

/-- An external ReliefF behaviour returning an always-fixed five-feature
ranking, used to evaluate the success path of `fit` on concrete
instances. -/
def relieffFixed : ℤ → ℤ → Matrix → List ℚ → Except PyErr (List ℕ) :=
  fun _ _ _ _ => .ok [4, 0, 3, 1, 2]

/-- An external ReliefF behaviour whose output is a constant ranking,
independent of the data: with it the success path of `fit` is fully
computable. -/
def relieffConst (top : List ℕ) : ℤ → ℤ → Matrix → List ℚ → Except PyErr (List ℕ) :=
  fun _ _ _ _ => .ok top

/-- A possible behaviour of the external ReliefF algorithm: its
nearest-neighbour ranking is distance-based and hence sensitive to
feature scaling. This instance ranks feature 0 first exactly when every
entry of the matrix it receives lies in `[0, 1]`. -/
def relieffScaleSensitive : ℤ → ℤ → Matrix → List ℚ → Except PyErr (List ℕ) :=
  fun _ _ X _ =>
    if X.all (fun r => r.all (fun x => decide (0 ≤ x) && decide (x ≤ 1))) then
      .ok [0, 1]
    else
      .ok [1, 0]

/-- A two-sample, two-feature matrix that min-max scaling changes. -/
def Xc6 : Matrix := [[0, 0], [2, 4]]

/-- Labels for `Xc6`. -/
def yc6 : List ℚ := [0, 1]

/-- A fresh `ReliefFSelection(num_neighbors=10, num_features=1)`. -/
def sC6 : feature_selection.ReliefFSelection :=
  feature_selection.ReliefFSelection.new (.int 10) (.int 1)

/-- Fitting `sC6` once on `(Xc6, yc6)` under the scale-sensitive ReliefF
behaviour, with a pass-through `check_support`. -/
def fitOnceC6 : Except PyErr (feature_selection.ReliefFSelection × List String) :=
  feature_selection.ReliefFSelection.fit relieffScaleSensitive (fun c _ => c) sC6 Xc6 yc6

/-- Fitting the same instance a second time with the identical data, as
`fit` leaves it after the first call. -/
def fitTwiceC6 : Except PyErr (feature_selection.ReliefFSelection × List String) := do
  let (s1, _) ← fitOnceC6
  feature_selection.ReliefFSelection.fit relieffScaleSensitive (fun c _ => c) s1 Xc6 yc6

/-- A `ReliefFSelection(num_neighbors=1, num_features=-2)` instance. -/
def sC10 : feature_selection.ReliefFSelection :=
  feature_selection.ReliefFSelection.new (.int 1) (.int (-2))

/-- A five-sample, one-feature matrix. -/
def Xc10 : Matrix := [[1], [2], [3], [4], [5]]

/-- Labels for `Xc10`. -/
def yc10 : List ℚ := [0, 1, 0, 1, 0]

/-- A `MutualInformationSelection(num_neighbors=10, num_features=2,
random_state=0)` instance. -/
def sMIc : feature_selection.MutualInformationSelection :=
  feature_selection.MutualInformationSelection.new (.int 10) (.int 2) 0

end Biorad

namespace Biorad

/-! ### Helper lemmas shared by the claim theorems -/

/-- Extracting the constructed space out of a successful construction. -/
theorem eq_okSpace_of_ok {e : Except PyErr ConfigurationSpace}
    {cs : ConfigurationSpace} (h : e = .ok cs) : cs = okSpace e := by
  subst h; rfl

/-- Monadic bind on a succeeded `Except` computation. -/
theorem except_bind_ok (a : α) (f : α → Except PyErr β) :
    (Except.ok a >>= f : Except PyErr β) = f a := rfl

/-- Monadic bind on a failed `Except` computation. -/
theorem except_bind_error (e : PyErr) (f : α → Except PyErr β) :
    (Except.error e >>= f : Except PyErr β) = .error e := rfl

/-- Python truncation agrees with the identity on integers. -/
theorem pyIntOfRat_intCast (i : ℤ) : pyIntOfRat (i : ℚ) = i := by
  unfold pyIntOfRat
  split
  · exact Int.floor_intCast i
  · rw [show -(i : ℚ) = ((-i : ℤ) : ℚ) from by push_cast; ring]
    rw [Int.floor_intCast]
    omega

/-- Python truncation never increases a value beyond a natural bound. -/
theorem pyIntOfRat_le_of_le {q : ℚ} {n : ℕ} (h : q ≤ (n : ℚ)) :
    pyIntOfRat q ≤ (n : ℤ) := by
  unfold pyIntOfRat
  split
  · calc ⌊q⌋ ≤ ⌊((n : ℤ) : ℚ)⌋ := Int.floor_le_floor (by exact_mod_cast h)
      _ = (n : ℤ) := Int.floor_intCast _
  · rename_i hq
    have h0 : q ≤ 0 := le_of_lt (lt_of_not_le hq)
    have : -q ≥ 0 := by linarith
    have hfl : (0 : ℤ) ≤ ⌊-q⌋ := by
      rw [Int.le_floor]; exact_mod_cast this
    omega

/-! ### C1 -/

/-- C1 counterexample: the adapters do not namespace their hyperparameter
names with the owning component's name — `ReliefFSelection`'s space
declares the bare name `num_neighbors` — and two distinct components
(`LogRegEstimator` and `SVCEstimator`) declare the identically named
hyperparameters `random_state` and `C`. -/
theorem c1_counterexample_bare_names_and_collisions :
    (okSpace feature_selection.ReliefFSelection.config_space).names =
      ["num_neighbors", "num_features"] ∧
    strStarts "ReliefFSelection" "num_neighbors" = false ∧
    "random_state" ∈ (okSpace classification.LogRegEstimator.config_space).names ∧
    "random_state" ∈ (okSpace classification.SVCEstimator.config_space).names ∧
    "C" ∈ (okSpace classification.LogRegEstimator.config_space).names ∧
    "C" ∈ (okSpace classification.SVCEstimator.config_space).names := by
  with_unfolding_all decide

/-- C1 amended: only `RFEstimator` prefixes its hyperparameter names with
its component name; the other adapters declare bare names, and distinct
components do declare identically named hyperparameters. Nevertheless,
every pipeline that pairs the one selector configuration space that
constructs successfully (`ReliefFSelection`'s) with any of the estimator
configuration spaces that construct successfully has globally unique
names in its merged space, because the bare name sets happen to be
disjoint. -/
theorem c1_amended_merged_spaces_unique :
    ([classification.rfName "random_state", classification.rfName "n_estimators",
      classification.rfName "criterion", classification.rfName "max_depth",
      classification.rfName "max_features", classification.rfName "bootstrap",
      classification.rfName "min_samples_leaf"].all
        (fun n => strStarts "RFEstimator" n)) = true ∧
    (mergedNames (okSpace feature_selection.ReliefFSelection.config_space)
      (okSpace classification.PLSREstimator.config_space)).Nodup ∧
    (mergedNames (okSpace feature_selection.ReliefFSelection.config_space)
      (okSpace classification.LogRegEstimator.config_space)).Nodup ∧
    (mergedNames (okSpace feature_selection.ReliefFSelection.config_space)
      (okSpace classification.SVCEstimator.config_space)).Nodup ∧
    (mergedNames (okSpace feature_selection.ReliefFSelection.config_space)
      (okSpace classification.KNNEstimator.config_space)).Nodup := by
  with_unfolding_all decide

/-! ### C3 -/

/-- C3: accessing the configuration-space property does not always
succeed. `RFEstimator.hparam_space` raises `ValueError` because the
declared default `1.0` of `RFEstimator__min_samples_leaf` lies below its
lower bound `1.5`, and `MutualInformationSelection.config_space` raises
`NameError` because its body references the undefined `num_features` (so
its declared `random_state` hyperparameter is also never added). The
remaining five adapter spaces construct successfully with every default
inside its domain. -/
theorem c3_config_space_access_failures :
    errOf classification.RFEstimator.hparam_space =
      some (.valueError
        "Illegal default value for hyperparameter RFEstimator__min_samples_leaf") ∧
    (Domain.containsVal (.uniformFloat (3 / 2) (101 / 2)) (.float 1)) = false ∧
    errOf feature_selection.MutualInformationSelection.config_space =
      some (.nameError "num_features") ∧
    ((configSpaceProperties.filter (fun e => (errOf e).isNone)).length = 5) ∧
    (configSpaceProperties.all
      (fun e => (okSpace e).defaultsInDomain)) = true := by
  with_unfolding_all decide

/-! ### C7 -/

/-- C7: the test harness's `model_comparison` call uses exactly the
spec's concrete scenario parameters: `random_states = np.arange(2) =
[0, 1]`, `CV = 3`, `OOB = 5`, `MAX_EVALS = 4`, the `[0, 1]`-bounded
`roc_auc_score` scorer, `error_score = NaN`, shuffling, balancing and
preliminary-result writing enabled. -/
theorem c7_test_invocation_parameters :
    test_experiment.testCall.random_states = test_experiment.np_arange 2 ∧
    test_experiment.testCall.random_states = [0, 1] ∧
    test_experiment.testCall.cv = 3 ∧
    test_experiment.testCall.oob = 5 ∧
    test_experiment.testCall.max_evals = 4 ∧
    test_experiment.testCall.scoring = .roc_auc_score ∧
    test_experiment.ScoringFn.bounds test_experiment.testCall.scoring = (0, 1) ∧
    test_experiment.testCall.error_score = .nan ∧
    test_experiment.testCall.shuffle = true ∧
    test_experiment.testCall.balancing = true ∧
    test_experiment.testCall.write_prelim = true := by
  decide

end Biorad

namespace Biorad

/-- Sharing the seed fact between a success hypothesis and the computed
space. -/
theorem seed_zero_of_ok {e : Except PyErr ConfigurationSpace}
    (h0 : (okSpace e).seed = some 0) {cs : ConfigurationSpace}
    (h : e = .ok cs) : cs.seed = some 0 := by
  rw [eq_okSpace_of_ok h]; exact h0

/-! ### C5 -/

/-- C5: both adapter modules define the module constant `SEED = 0` (never
reassigned), every `config_space` body seeds its freshly constructed
space with it, every space such a property returns therefore carries seed
0, and two invocations of the same property return equal spaces, so any
sampling procedure that is a function of the returned space draws
identically from them. -/
theorem c5_config_space_seeding_deterministic :
    classification.SEED = 0 ∧
    feature_selection.SEED = 0 ∧
    classification.freshSeeded.seed = some classification.SEED ∧
    feature_selection.freshSeeded.seed = some feature_selection.SEED ∧
    (∀ e ∈ configSpaceProperties, ∀ cs, e = .ok cs → cs.seed = some 0) ∧
    (∀ sample : ConfigurationSpace → List ℚ,
      ∀ e ∈ configSpaceProperties, ∀ cs cs',
        e = .ok cs → e = .ok cs' → sample cs = sample cs') := by
  refine ⟨rfl, rfl, rfl, rfl, ?_, ?_⟩
  · intro e he
    fin_cases he
    · exact fun cs h => seed_zero_of_ok (by with_unfolding_all decide) h
    · intro cs h
      rw [show feature_selection.MutualInformationSelection.config_space =
          Except.error (PyErr.nameError "num_features") from by
            with_unfolding_all rfl] at h
      exact Except.noConfusion h
    · exact fun cs h => seed_zero_of_ok (by with_unfolding_all decide) h
    · exact fun cs h => seed_zero_of_ok (by with_unfolding_all decide) h
    · exact fun cs h => seed_zero_of_ok (by with_unfolding_all decide) h
    · exact fun cs h => seed_zero_of_ok (by with_unfolding_all decide) h
  · intro sample e _he cs cs' h h'
    rw [h] at h'
    injection h' with hh
    rw [hh]

/-- C5 witness: the clause about returned seeds, applied to the concrete
space `ReliefFSelection.config_space` returns. -/
theorem c5_witness :
    (okSpace feature_selection.ReliefFSelection.config_space).seed = some 0 := by
  refine c5_config_space_seeding_deterministic.2.2.2.2.1
    feature_selection.ReliefFSelection.config_space ?_ _ ?_
  · simp [configSpaceProperties]
  · with_unfolding_all rfl

/-! ### C8 -/

/-- C8: for every numeric initial `num_neighbors` and every row count
`n`, the `num_neighbors` branch of `_check_params` (shared verbatim by
`ReliefFSelection` and `MutualInformationSelection`) yields an int that
is at most `n`: it is `n - 1` when the initial value strictly exceeded
`n` and the initial value truncated with `int(...)` otherwise; in
particular an initial value equal to `n` is kept unchanged. -/
theorem c8_check_params_caps_num_neighbors (num_neighbors : PyNum) (n : ℕ) :
    ∃ i : ℤ, feature_selection.checkNumNeighbors num_neighbors n = .int i ∧
      i ≤ (n : ℤ) ∧
      (if num_neighbors.toRat > (n : ℚ) then i = (n : ℤ) - 1
        else i = num_neighbors.toInt) ∧
      (num_neighbors = .int (n : ℤ) → i = (n : ℤ)) := by
  unfold feature_selection.checkNumNeighbors
  by_cases h : num_neighbors.toRat > (n : ℚ)
  · refine ⟨(n : ℤ) - 1, by rw [if_pos h], by omega, by rw [if_pos h], ?_⟩
    intro hn
    subst hn
    simp only [PyNum.toRat] at h
    exact absurd h (by push_cast; exact lt_irrefl _)
  · refine ⟨num_neighbors.toInt, by rw [if_neg h], ?_, by rw [if_neg h], ?_⟩
    · exact pyIntOfRat_le_of_le (not_lt.mp h)
    · intro hn
      subst hn
      simp only [PyNum.toInt, PyNum.toRat]
      exact pyIntOfRat_intCast _

/-- C8 witness: a five-neighbour request on a three-row matrix is capped
at `n - 1 = 2`. -/
theorem c8_witness :
    feature_selection.checkNumNeighbors (.int 5) 3 = .int 2 := by
  obtain ⟨i, h1, -, h3, -⟩ := c8_check_params_caps_num_neighbors (.int 5) 3
  rw [if_pos (show PyNum.toRat (.int 5) > ((3 : ℕ) : ℚ) from by
    with_unfolding_all decide)] at h3
  rw [h1, h3]
  norm_num

end Biorad

namespace Biorad

/-! ### C4 -/

/-- C4: in `SVCEstimator`'s configuration space, `degree` is active in an
assignment exactly when `kernel` is "poly", `gamma_value` exactly when
`gamma` is "value", `coef0` exactly when `kernel` is "poly" or "sigmoid",
and `gamma` exactly when `kernel` is "rbf", "poly" or "sigmoid"; in
`KNNEstimator`'s space, `p` is active exactly when `metric` is
"minkowski". -/
theorem c4_conditional_activation (cfg : String → PyVal) :
    (∀ cs, classification.SVCEstimator.config_space = .ok cs →
      ((cs.activeB "degree" cfg = true ↔ cfg "kernel" = .str "poly") ∧
       (cs.activeB "gamma_value" cfg = true ↔ cfg "gamma" = .str "value") ∧
       (cs.activeB "coef0" cfg = true ↔
         (cfg "kernel" = .str "poly" ∨ cfg "kernel" = .str "sigmoid")) ∧
       (cs.activeB "gamma" cfg = true ↔
         (cfg "kernel" = .str "rbf" ∨ cfg "kernel" = .str "poly" ∨
          cfg "kernel" = .str "sigmoid")))) ∧
    (∀ cs, classification.KNNEstimator.config_space = .ok cs →
      (cs.activeB "p" cfg = true ↔ cfg "metric" = .str "minkowski")) := by
  constructor
  · intro cs h
    rw [eq_okSpace_of_ok h]
    have hconds : (okSpace classification.SVCEstimator.config_space).conditions =
        [⟨"degree", "kernel", [.str "poly"]⟩,
         ⟨"gamma_value", "gamma", [.str "value"]⟩,
         ⟨"coef0", "kernel", [.str "poly", .str "sigmoid"]⟩,
         ⟨"gamma", "kernel", [.str "rbf", .str "poly", .str "sigmoid"]⟩] := by
      with_unfolding_all rfl
    unfold ConfigurationSpace.activeB
    rw [hconds]
    refine ⟨?_, ?_, ?_, ?_⟩ <;> simp [List.all_cons]
  · intro cs h
    rw [eq_okSpace_of_ok h]
    have hconds : (okSpace classification.KNNEstimator.config_space).conditions =
        [⟨"p", "metric", [.str "minkowski"]⟩] := by
      with_unfolding_all rfl
    unfold ConfigurationSpace.activeB
    rw [hconds]
    simp [List.all_cons]

/-- C4 witness: in the concrete SVC space, `degree` is active under an
assignment that sets `kernel` to "poly". -/
theorem c4_witness :
    (okSpace classification.SVCEstimator.config_space).activeB "degree"
      (fun _ => PyVal.str "poly") = true :=
  (((c4_conditional_activation (fun _ => PyVal.str "poly")).1
    (okSpace classification.SVCEstimator.config_space)
    (by with_unfolding_all rfl)).1).mpr rfl

end Biorad

namespace Biorad

/-- The `SelectKBest` fit with the score closure of
`MutualInformationSelection.fit` always raises: either `k` fails
validation, or the score closure's `NameError` propagates. -/
theorem selectKBest_unbound (k : ℤ) (X : Matrix) (y : List ℚ) :
    ∃ e, selectKBest (fun _ _ => feature_selection.mutual_info_classif_call) k X y =
      .error e := by
  unfold selectKBest
  split
  · exact ⟨_, rfl⟩
  · exact ⟨_, rfl⟩

/-- `_check_X_y` on a fresh instance (no scaler stored yet): fits a
scaler, stores it, and returns the rescaled matrix. -/
theorem checkXy_fresh {s : feature_selection.ReliefFSelection} {X : Matrix} {y : List ℚ}
    (hs : s.scaler = Option.none) (hshape : check_X_y X y = .ok (X, y)) :
    feature_selection.ReliefFSelection.checkXy s X y =
      .ok ((MinMaxScaler.fitOn X).transform X, y,
        { s with scaler := some (MinMaxScaler.fitOn X) }) := by
  unfold feature_selection.ReliefFSelection.checkXy
  rw [hshape, except_bind_ok, hs]
  rfl

/-- `_check_X_y` on an instance that already stores a scaler: the matrix
is returned untouched and the instance unchanged. -/
theorem checkXy_fitted {s : feature_selection.ReliefFSelection} {X : Matrix} {y : List ℚ}
    {sc : MinMaxScaler} (hs : s.scaler = some sc) (hshape : check_X_y X y = .ok (X, y)) :
    feature_selection.ReliefFSelection.checkXy s X y = .ok (X, y, s) := by
  unfold feature_selection.ReliefFSelection.checkXy
  rw [hshape, except_bind_ok, hs]
  rfl

/-! ### C2 -/

/-- C2: on shape-accepted input, `ReliefFSelection.fit` returns `.ok` for
every behaviour of the underlying algorithm; when the algorithm raises,
the exception is swallowed, the warning is issued, and the support is
`check_support` of the empty candidate list; and
`MutualInformationSelection.fit` — whose score function's unbound
`mutual_info_classif` name makes the underlying `SelectKBest` fit raise
unconditionally — always returns `.ok` with the empty-candidate support
and its warning. -/
theorem c2_fit_recovers_from_selection_failure
    (relieff : ℤ → ℤ → Matrix → List ℚ → Except PyErr (List ℕ))
    (check_support : List ℕ → Matrix → List ℕ)
    (s : feature_selection.ReliefFSelection)
    (sMI : feature_selection.MutualInformationSelection)
    (X : Matrix) (y : List ℚ) (e : PyErr)
    (hshape : check_X_y X y = .ok (X, y))
    (hfail : ∀ nn nf X' y', relieff nn nf X' y' = .error e) :
    (∀ relieffAny : ℤ → ℤ → Matrix → List ℚ → Except PyErr (List ℕ),
      ∃ out, feature_selection.ReliefFSelection.fit relieffAny check_support s X y =
        .ok out) ∧
    (∃ s' X', feature_selection.ReliefFSelection.fit relieff check_support s X y =
        .ok (s', ["Failed to select support with ReliefFSelection"]) ∧
      s'.support = some (check_support [] X')) ∧
    (feature_selection.MutualInformationSelection.fit check_support sMI X y =
      .ok ({ sMI with support := some (check_support [] X) },
           ["Failed support with MutualInformationSelection."])) := by
  refine ⟨?_, ?_, ?_⟩
  · intro relieffAny
    unfold feature_selection.ReliefFSelection.fit
    cases hs : s.scaler with
    | none => rw [checkXy_fresh hs hshape, except_bind_ok]; exact ⟨_, rfl⟩
    | some sc => rw [checkXy_fitted hs hshape, except_bind_ok]; exact ⟨_, rfl⟩
  · unfold feature_selection.ReliefFSelection.fit
    cases hs : s.scaler with
    | none =>
        rw [checkXy_fresh hs hshape, except_bind_ok]
        simp only [hfail]
        exact ⟨_, _, rfl, rfl⟩
    | some sc =>
        rw [checkXy_fitted hs hshape, except_bind_ok]
        simp only [hfail]
        exact ⟨_, _, rfl, rfl⟩
  · unfold feature_selection.MutualInformationSelection.fit
    rw [hshape, except_bind_ok]
    obtain ⟨e', he'⟩ := selectKBest_unbound (PyNum.toInt sMI.num_features) X y
    simp only [he']
    rfl

/-- C2 witness: a concrete always-failing ReliefF behaviour on the
concrete `(sC6, Xc6, yc6)` input yields the caught-failure outcome. -/
theorem c2_witness :
    ∃ s' X',
      feature_selection.ReliefFSelection.fit
        (fun _ _ _ _ => Except.error (PyErr.valueError "fit failed"))
        (fun c _ => c) sC6 Xc6 yc6 =
        .ok (s', ["Failed to select support with ReliefFSelection"]) ∧
      s'.support = some ((fun (c : List ℕ) (_ : Matrix) => c) [] X') :=
  (c2_fit_recovers_from_selection_failure
    (fun _ _ _ _ => Except.error (PyErr.valueError "fit failed")) (fun c _ => c)
    sC6 sMIc Xc6 yc6 (PyErr.valueError "fit failed")
    (by with_unfolding_all rfl) (fun _ _ _ _ => rfl)).2.1

/-! ### C9 -/

/-- C9: on shape-accepted input, both fit methods assign
`check_support` of the computed candidate list to `support` on every
return path (whatever the underlying algorithm does), so `fit` never
returns with `support` still `None`. -/
theorem c9_fit_always_assigns_support
    (relieff : ℤ → ℤ → Matrix → List ℚ → Except PyErr (List ℕ))
    (check_support : List ℕ → Matrix → List ℕ)
    (s : feature_selection.ReliefFSelection)
    (sMI : feature_selection.MutualInformationSelection)
    (X : Matrix) (y : List ℚ)
    (hshape : check_X_y X y = .ok (X, y)) :
    (∃ s' warns cand X',
      feature_selection.ReliefFSelection.fit relieff check_support s X y =
        .ok (s', warns) ∧
      s'.support = some (check_support cand X') ∧ s'.support ≠ Option.none) ∧
    (∃ s' warns cand,
      feature_selection.MutualInformationSelection.fit check_support sMI X y =
        .ok (s', warns) ∧
      s'.support = some (check_support cand X) ∧ s'.support ≠ Option.none) := by
  constructor
  · unfold feature_selection.ReliefFSelection.fit
    cases hs : s.scaler with
    | none =>
        rw [checkXy_fresh hs hshape, except_bind_ok]
        exact ⟨_, _, _, _, rfl, rfl, by simp⟩
    | some sc =>
        rw [checkXy_fitted hs hshape, except_bind_ok]
        exact ⟨_, _, _, _, rfl, rfl, by simp⟩
  · unfold feature_selection.MutualInformationSelection.fit
    rw [hshape, except_bind_ok]
    exact ⟨_, _, _, rfl, rfl, by simp⟩

/-- C9 witness: the concrete fixed-ranking ReliefF behaviour on
`(sC10, Xc10, yc10)`. -/
theorem c9_witness :
    ∃ s' warns cand X',
      feature_selection.ReliefFSelection.fit relieffFixed (fun c _ => c)
        sC10 Xc10 yc10 = .ok (s', warns) ∧
      s'.support = some ((fun (c : List ℕ) (_ : Matrix) => c) cand X') ∧
      s'.support ≠ Option.none :=
  (c9_fit_always_assigns_support relieffFixed (fun c _ => c) sC10 sMIc Xc10 yc10
    (by with_unfolding_all rfl)).1

end Biorad

namespace Biorad

/-! ### C6 -/

/-- C6 counterexample: fitting the same fresh `ReliefFSelection` twice on
the identical `(Xc6, yc6)` under a scale-sensitive ReliefF behaviour
yields support `[1]`, while fitting once yields `[0]` — because the
second call finds the stored scaler and skips the min-max scaling, so the
underlying algorithm receives the raw matrix. -/
theorem c6_counterexample_refit_changes_support :
    fitOnceC6.map (fun o => o.1.support) = .ok (some [0]) ∧
    fitTwiceC6.map (fun o => o.1.support) = .ok (some [1]) ∧
    (some [0] : Option (List ℕ)) ≠ some [1] ∧
    fitOnceC6.map (fun o => o.1.scaler.isSome) = .ok true := by
  refine ⟨?_, ?_, by decide, ?_⟩
  · with_unfolding_all rfl
  · with_unfolding_all rfl
  · with_unfolding_all rfl

/-- C6 amended: `ReliefFSelection.fit` does carry fitted state across
calls. On a fresh instance `_check_X_y` fits and stores a `MinMaxScaler`
and returns the rescaled matrix; on every later call the stored scaler is
found and the matrix is returned entirely unscaled (the instance
unchanged), so min-max scaling is applied only on the first call of the
instance and a second fit passes the raw matrix to the underlying
algorithm; the twice-fitted support therefore agrees with the once-fitted
support only when the algorithm is insensitive to that rescaling. -/
theorem c6_amended_scaling_only_on_first_call
    (s : feature_selection.ReliefFSelection) (X : Matrix) (y : List ℚ)
    (hs : s.scaler = Option.none) (hshape : check_X_y X y = .ok (X, y)) :
    feature_selection.ReliefFSelection.checkXy s X y =
      .ok ((MinMaxScaler.fitOn X).transform X, y,
        { s with scaler := some (MinMaxScaler.fitOn X) }) ∧
    (some (MinMaxScaler.fitOn X) ≠ (Option.none : Option MinMaxScaler)) ∧
    (∀ (s₂ : feature_selection.ReliefFSelection) sc, s₂.scaler = some sc →
      feature_selection.ReliefFSelection.checkXy s₂ X y = .ok (X, y, s₂)) :=
  ⟨checkXy_fresh hs hshape, by simp,
   fun _ _ h => checkXy_fitted h hshape⟩

/-- C6 witness: the amended theorem at the concrete `(sC6, Xc6, yc6)`. -/
theorem c6_witness :
    feature_selection.ReliefFSelection.checkXy sC6 Xc6 yc6 =
      .ok ((MinMaxScaler.fitOn Xc6).transform Xc6, yc6,
        { sC6 with scaler := some (MinMaxScaler.fitOn Xc6) }) :=
  (c6_amended_scaling_only_on_first_call sC6 Xc6 yc6 rfl
    (by with_unfolding_all rfl)).1

/-! ### C10 -/

/-- C10 counterexample: with `num_features = -2` (as the constructor
accepts) and a successful five-feature ranking, the candidate support is
the Python slice `top_features[:-2] = [4, 0, 3]`, whose three indices are
not "at most num_features": the claim's bound fails for a negative
`num_features`. -/
theorem c10_counterexample_negative_num_features :
    (feature_selection.ReliefFSelection.fit relieffFixed (fun c _ => c)
        sC10 Xc10 yc10).map (fun o => o.1.support) = .ok (some [4, 0, 3]) ∧
    pySliceTo ([4, 0, 3, 1, 2] : List ℕ) (-2) = [4, 0, 3] ∧
    ¬ ((([4, 0, 3] : List ℕ).length : ℤ) ≤ -2) := by
  refine ⟨?_, ?_, by decide⟩
  · with_unfolding_all rfl
  · with_unfolding_all rfl

/-- C10 amended: the Python slice `l[:k]` is total — its result never has
more elements than `l`, and for nonnegative `k` at most `k` elements —
and on the success path of `ReliefFSelection.fit` the candidate support
is exactly `top_features[:num_features]` with the instance's checked
`num_features`; "at most num_features indices" holds whenever
`num_features` is nonnegative (a negative value instead drops trailing
elements of the ranking). -/
theorem c10_amended_slice_total_and_bounded
    (top : List ℕ) (k : ℤ)
    (check_support : List ℕ → Matrix → List ℕ)
    (s : feature_selection.ReliefFSelection) (X : Matrix) (y : List ℚ)
    (hshape : check_X_y X y = .ok (X, y)) :
    (pySliceTo top k).length ≤ top.length ∧
    (0 ≤ k → ((pySliceTo top k).length : ℤ) ≤ k) ∧
    (∃ s' X', feature_selection.ReliefFSelection.fit (relieffConst top)
        check_support s X y = .ok (s', []) ∧
      s'.support = some (check_support
        (pySliceTo top (feature_selection.checkNumFeatures s.num_features).toInt) X')) := by
  refine ⟨?_, ?_, ?_⟩
  · unfold pySliceTo
    split <;> (rw [List.length_take]; omega)
  · intro hk
    unfold pySliceTo
    rw [if_pos hk, List.length_take]
    omega
  · unfold feature_selection.ReliefFSelection.fit
    cases hs : s.scaler with
    | none =>
        rw [checkXy_fresh hs hshape, except_bind_ok]
        simp only [relieffConst]
        exact ⟨_, _, rfl, rfl⟩
    | some sc =>
        rw [checkXy_fitted hs hshape, except_bind_ok]
        simp only [relieffConst]
        exact ⟨_, _, rfl, rfl⟩

/-- C10 witness: the nonnegative-bound clause at a concrete slice. -/
theorem c10_witness :
    ((pySliceTo ([0, 1, 2] : List ℕ) 2).length : ℤ) ≤ 2 :=
  (c10_amended_slice_total_and_bounded [0, 1, 2] 2 (fun c _ => c) sC10 Xc10 yc10
    (by with_unfolding_all rfl)).2.1 (by decide)

end Biorad
